import Mathlib

/-!
Shallow embedding of the edge-triggered interrupt dispatch subsystem of
Jakestering (jakestering.c): the per-pin static tables, `wait_for_interrupt`,
`interrupt_handler`'s loop body, `wait_for_interrupt_to_close`,
`interrupt_init` and `jakestering_ISR`.

System-call results (open/ioctl/fcntl/poll/read) are supplied as explicit
oracle inputs; the global mutable tables become fields of an explicit state
record threaded through each function.  Side effects that the claims observe
(thread creation, thread cancellation requests, descriptor closes) are
recorded in event counters carried in the same record.
-/

namespace Jakestering

/-- The per-process mutable state of jakestering.c:
`static int chip_FD = -1;`
`static int pin_FDs[32] = {-1};`
`static void(*isr_functions[32])(void);`  (modelled as `Option Nat`: a
function-pointer token, `none` = NULL)
`static pthread_t isr_threads[32];`  (modelled as `Option Nat`: a thread
token, `none` = no thread recorded)
`static int isr_modes[32];`
`static int isr_function_called[32] = {1};`
plus instrumentation counters recording observable side effects:
`threadsCreated` counts successful `pthread_create` calls,
`cancels` counts `pthread_cancel` requests,
`closes` counts `close` calls on line-event descriptors. -/
structure JState where
  chip_FD : Int
  pin_FDs : List Int
  isr_functions : List (Option Nat)
  isr_threads : List (Option Nat)
  isr_modes : List Int
  isr_function_called : List Int
  threadsCreated : Nat
  cancels : Nat
  closes : Nat
  deriving DecidableEq

/-- C static initialization: `pin_FDs[32] = {-1}` sets index 0 to -1 and
indexes 1..31 to 0; `isr_function_called[32] = {1}` sets index 0 to 1 and
indexes 1..31 to 0; the other arrays are zero-initialized. -/
def initState : JState where
  chip_FD := -1
  pin_FDs := -1 :: List.replicate 31 0
  isr_functions := List.replicate 32 none
  isr_threads := List.replicate 32 none
  isr_modes := List.replicate 32 0
  isr_function_called := 1 :: List.replicate 31 0
  threadsCreated := 0
  cancels := 0
  closes := 0

/-- `sizeof(struct gpioevent_data)` from linux/gpio.h: a __u64 timestamp and
a __u32 id, padded to 16 bytes. -/
def gpioevent_data_size : Int := 16

/-- Oracle inputs for one `wait_for_interrupt` call: the return value of
`poll`, the return value of `read` (consulted only when poll reported
readiness), and the decoded `event_data.id` (meaningful only when the read
returned a full record). -/
structure WaitInput where
  pollRet : Int
  readRet : Int
  eventId : Int
  deriving DecidableEq

/-- Result of one `wait_for_interrupt` call: the updated state, the returned
`int`, and whether the call reached the `poll` and the `read` system calls. -/
structure WaitResult where
  state : JState
  ret : Int
  polled : Bool
  readAttempted : Bool
  deriving DecidableEq

/-- `wait_for_interrupt(pin, ms)` (jakestering.c lines 298-338): if
`pin_FDs[pin] == -1` return -2 at once; otherwise poll; on `poll` returning
non-positive, return that value; on readiness read one event record: a full
record whose id is 1 re-arms the pin (`isr_function_called[pin] = 1`) and the
id is returned; a short read returns 0. -/
def wait_for_interrupt (s : JState) (pin : Nat) (ms : Int) (inp : WaitInput) :
    WaitResult :=
  let _ := ms
  let fd := s.pin_FDs.getD pin 0
  if fd = -1 then
    ⟨s, -2, false, false⟩
  else
    let ret := inp.pollRet
    if ret ≤ 0 then
      ⟨s, ret, true, false⟩
    else
      if inp.readRet = gpioevent_data_size then
        let ret := inp.eventId
        if ret = 1 then
          ⟨{ s with isr_function_called := s.isr_function_called.set pin 1 },
            ret, true, true⟩
        else
          ⟨s, ret, true, true⟩
      else
        ⟨s, 0, true, true⟩

/-- One iteration of the `for(;;)` loop body of `interrupt_handler`
(jakestering.c lines 272-291), given the value `ret` returned by
`wait_for_interrupt`: when `ret > 0`, if a callback is registered and the
pin is armed, invoke the callback (recorded in the returned list) and disarm;
when `ret < 0`, break out of the loop (third component `true`). -/
def interrupt_handler_step (s : JState) (pin : Nat) (ret : Int) :
    JState × List Nat × Bool :=
  if ret > 0 then
    match s.isr_functions.getD pin none with
    | some f =>
      if s.isr_function_called.getD pin 0 ≠ 0 then
        ({ s with isr_function_called := s.isr_function_called.set pin 0 },
          [f], false)
      else
        (s, [], false)
    | none => (s, [], false)
  else if ret < 0 then
    (s, [], true)
  else
    (s, [], false)

/-- `wait_for_interrupt_to_close(pin)` (jakestering.c lines 340-360): when
`pin_FDs[pin] > 0`, request cancellation of the pin's thread and close the
descriptor (recorded in the `cancels`/`closes` counters); in every case set
`pin_FDs[pin] = -1`, `isr_functions[pin] = NULL`,
`isr_function_called[pin] = 1`, and return 0. -/
def wait_for_interrupt_to_close (s : JState) (pin : Nat) : JState × Int :=
  let fd := s.pin_FDs.getD pin 0
  let s1 := if fd > 0 then
      { s with cancels := s.cancels + 1, closes := s.closes + 1 }
    else s
  ({ s1 with
      pin_FDs := s1.pin_FDs.set pin (-1)
      isr_functions := s1.isr_functions.set pin none
      isr_function_called := s1.isr_function_called.set pin 1 }, 0)

/-- The `for(;;)` loop of `interrupt_handler` (jakestering.c lines 263-296)
run over a finite script of per-cycle oracle inputs: each cycle calls
`wait_for_interrupt(pin, -1)` then runs the loop body; on break the
post-loop `wait_for_interrupt_to_close(pin)` cleanup runs (third component
`true` records that the teardown path ran).  Returns the final state, the
list of callback invocations in order, and the teardown flag. -/
def interrupt_loop (s : JState) (pin : Nat) (inputs : List WaitInput) :
    JState × List Nat × Bool :=
  match inputs with
  | [] => (s, [], false)
  | inp :: rest =>
    let w := wait_for_interrupt s pin (-1) inp
    let step := interrupt_handler_step w.state pin w.ret
    if step.2.2 then
      ((wait_for_interrupt_to_close step.1 pin).1, step.2.1, true)
    else
      let next := interrupt_loop step.1 pin rest
      (next.1, step.2.1 ++ next.2.1, next.2.2)

/-- Oracle inputs for one `interrupt_init` call: the result of
`open("/dev/gpiochip0")` (used only when `chip_FD < 0`), the result of the
`GPIO_GET_LINEEVENT_IOCTL` ioctl (0 = success), the line-event descriptor
`req.fd` delivered on ioctl success, and the result of the
`fcntl(F_SETFL)` call (0 = success). -/
structure InitEnv where
  openRet : Int
  ioctlRet : Int
  lineFd : Int
  fcntlSetRet : Int
  deriving DecidableEq

/-- The part of `interrupt_init` after the chip descriptor is known to be
open (jakestering.c lines 378-417): issue the line-event ioctl, fail with -1
if it fails; store the returned descriptor in `pin_FDs[pin]`; try to set it
non-blocking, fail with -1 if `fcntl` fails (the descriptor is neither
closed nor removed from `pin_FDs` on this path); otherwise return 0. -/
def interrupt_init_after_chip (s : JState) (env : InitEnv) (pin : Nat) :
    JState × Int :=
  if env.ioctlRet ≠ 0 then
    (s, -1)
  else
    let fd_line := env.lineFd
    let s1 := { s with pin_FDs := s.pin_FDs.set pin fd_line }
    if env.fcntlSetRet ≠ 0 then
      (s1, -1)
    else
      (s1, 0)

/-- `interrupt_init(pin, mode)` (jakestering.c lines 362-418): lazily open
`/dev/gpiochip0` into `chip_FD` (fail with -1 if the open fails), then
request the line event and configure it via `interrupt_init_after_chip`.
The `mode` argument only selects `req.eventflags` and the log string and
touches no modelled state. -/
def interrupt_init (s : JState) (env : InitEnv) (pin : Nat) (mode : Int) :
    JState × Int :=
  let _ := mode
  if s.chip_FD < 0 then
    let s1 := { s with chip_FD := env.openRet }
    if s1.chip_FD < 0 then
      (s1, -1)
    else
      interrupt_init_after_chip s1 env pin
  else
    interrupt_init_after_chip s env pin

/-- `jakestering_ISR(pin, mode, function)` (jakestering.c lines 420-449):
store the callback, the mode and `isr_function_called[pin] = 1`; call
`interrupt_init` and, if it fails, only print a message and continue; then
(under the mutex, with the `pin_pass` handshake) attempt to create the
dispatch thread — `threadCreateOk` supplies the `pthread_create` outcome;
on success the new thread token is stored in `isr_threads[pin]`.  The
function always returns 0. -/
def jakestering_ISR (s : JState) (env : InitEnv) (threadCreateOk : Bool)
    (pin : Nat) (mode : Int) (function : Nat) : JState × Int :=
  let s1 := { s with
      isr_functions := s.isr_functions.set pin (some function)
      isr_modes := s.isr_modes.set pin mode
      isr_function_called := s.isr_function_called.set pin 1 }
  let s2 := (interrupt_init s1 env pin mode).1
  let s3 := if threadCreateOk then
      { s2 with
          isr_threads := s2.isr_threads.set pin (some (s2.threadsCreated + 1))
          threadsCreated := s2.threadsCreated + 1 }
    else s2
  (s3, 0)

/-- An oracle in which every system call of registration succeeds: the chip
opens as descriptor 3, the line-event ioctl succeeds delivering descriptor
4, and the non-blocking fcntl succeeds. -/
def goodEnv : InitEnv where
  openRet := 3
  ioctlRet := 0
  lineFd := 4
  fcntlSetRet := 0

/-- An oracle in which the line-event ioctl fails (returns -1); the chip
opens fine. -/
def failLineEnv : InitEnv where
  openRet := 3
  ioctlRet := -1
  lineFd := 0
  fcntlSetRet := 0

/-- An oracle in which the line-event ioctl fails with -EBUSY (-16), as the
kernel reports when the line is already claimed by an earlier request. -/
def busyEnv : InitEnv where
  openRet := 3
  ioctlRet := -16
  lineFd := 0
  fcntlSetRet := 0

/-- An oracle in which the line-event ioctl succeeds delivering descriptor 4
but the non-blocking `fcntl(F_SETFL)` fails. -/
def fcntlFailEnv : InitEnv where
  openRet := 3
  ioctlRet := 0
  lineFd := 4
  fcntlSetRet := -1

/-- The state after a fully successful `jakestering_ISR(5, 2, f7)` from the
initial state: pin 5 registered with callback token 7 and descriptor 4. -/
def regState : JState := (jakestering_ISR initState goodEnv true 5 2 7).1

/-- A poll cycle in which poll reports readiness, the read returns a full
16-byte record, and the decoded event id is the valid sentinel 1. -/
def validEventInput : WaitInput where
  pollRet := 1
  readRet := 16
  eventId := 1

/-- `getD` after `set` at the same in-bounds index yields the written value. -/
theorem getD_set_same {α : Type} (l : List α) (i : Nat) (a d : α)
    (h : i < l.length) : (l.set i a).getD i d = a := by
  induction l generalizing i with
  | nil => exact absurd h (Nat.not_lt_zero i)
  | cons x xs ih =>
    cases i with
    | zero => rfl
    | succ k =>
      have hk : k < xs.length := Nat.lt_of_succ_lt_succ h
      simpa [List.set, List.getD] using ih k hk

/-- The same fact in the `getElem?`-based normal form that `simp` produces. -/
theorem getElem?_getD_set_same {α : Type} (l : List α) (i : Nat) (a d : α)
    (h : i < l.length) : (l.set i a)[i]?.getD d = a := by
  rw [List.getElem?_set_self h]
  rfl

/-- `getD` of `replicate` at an in-bounds index yields the replicated value. -/
theorem getD_replicate {α : Type} (n i : Nat) (a d : α) (h : i < n) :
    (List.replicate n a).getD i d = a := by
  induction n generalizing i with
  | zero => exact absurd h (Nat.not_lt_zero i)
  | succ m ih =>
    cases i with
    | zero => rfl
    | succ k =>
      have hk : k < m := Nat.lt_of_succ_lt_succ h
      simpa [List.replicate, List.getD] using ih k hk

/-- C9: in the initial process state, only index 0 of the per-pin tables
carries the written sentinels: `pin_FDs[0] = -1` and
`isr_function_called[0] = 1`, while every pin 1..31 has `pin_FDs[pin] = 0`
and `isr_function_called[pin] = 0`; hence the unset-descriptor test
`pin_FDs[pin] == -1` in `wait_for_interrupt` does not classify a
never-registered pin 1..31 as unset: with the descriptor test passed, a call
whose poll times out proceeds to the poll and returns its value instead
of -2. -/
theorem C9_initial_sentinels_only_at_index_zero (pin : Nat)
    (h1 : 1 ≤ pin) (h2 : pin ≤ 31) :
    initState.pin_FDs.getD 0 0 = -1 ∧
    initState.isr_function_called.getD 0 0 = 1 ∧
    initState.pin_FDs.getD pin 0 = 0 ∧
    initState.isr_function_called.getD pin 0 = 0 ∧
    initState.pin_FDs.getD pin 0 ≠ -1 ∧
    (∀ inp : WaitInput, inp.pollRet = 0 →
      wait_for_interrupt initState pin (-1) inp = ⟨initState, 0, true, false⟩) := by
  obtain ⟨k, rfl⟩ : ∃ k, pin = k + 1 := ⟨pin - 1, (Nat.succ_pred_eq_of_pos h1).symm⟩
  have hk : k < 31 := Nat.lt_of_succ_le h2
  have hfd : initState.pin_FDs.getD (k + 1) 0 = 0 := by
    show ((-1 : Int) :: List.replicate 31 0).getD (k + 1) 0 = 0
    simpa [List.getD] using getD_replicate 31 k (0 : Int) 0 hk
  have hic : initState.isr_function_called.getD (k + 1) 0 = 0 := by
    show ((1 : Int) :: List.replicate 31 0).getD (k + 1) 0 = 0
    simpa [List.getD] using getD_replicate 31 k (0 : Int) 0 hk
  refine ⟨rfl, rfl, hfd, hic, by rw [hfd]; decide, ?_⟩
  intro inp hpoll
  unfold wait_for_interrupt
  rw [hfd, hpoll]
  norm_num

/-- Witness for C9 at pin 1. -/
theorem C9_witness :
    initState.pin_FDs.getD 0 0 = -1 ∧
    initState.isr_function_called.getD 0 0 = 1 ∧
    initState.pin_FDs.getD 1 0 = 0 ∧
    initState.isr_function_called.getD 1 0 = 0 ∧
    initState.pin_FDs.getD 1 0 ≠ -1 ∧
    (∀ inp : WaitInput, inp.pollRet = 0 →
      wait_for_interrupt initState 1 (-1) inp = ⟨initState, 0, true, false⟩) :=
  C9_initial_sentinels_only_at_index_zero 1 (by decide) (by decide)

/-- C10: for every pin whose stored descriptor is the unset sentinel -1,
`wait_for_interrupt` returns the distinct error code -2 without polling or
reading and without touching state; the loop body treats this negative
result as a break, so the dispatch loop exits on its first cycle and runs
the `wait_for_interrupt_to_close` teardown path for that pin. -/
theorem C10_unset_descriptor_returns_minus_two_and_tears_down
    (s : JState) (pin : Nat) (ms : Int) (inp : WaitInput)
    (inputs : List WaitInput) (hfd : s.pin_FDs.getD pin 0 = -1) :
    wait_for_interrupt s pin ms inp = ⟨s, -2, false, false⟩ ∧
    interrupt_handler_step s pin (-2) = (s, [], true) ∧
    interrupt_loop s pin (inp :: inputs) =
     ((wait_for_interrupt_to_close s pin).1, [], true) := by
  have hw : wait_for_interrupt s pin ms inp = ⟨s, -2, false, false⟩ := by
    unfold wait_for_interrupt
    rw [hfd]
    simp
  have hs : interrupt_handler_step s pin (-2) = (s, [], true) := by
    unfold interrupt_handler_step
    norm_num
  refine ⟨hw, hs, ?_⟩
  unfold interrupt_loop
  rw [show wait_for_interrupt s pin (-1) inp = ⟨s, -2, false, false⟩ from hw]
  simp [hs]

/-- Witness for C10 at the initial state and pin 0, whose descriptor slot is
statically initialized to -1. -/
theorem C10_witness :
    wait_for_interrupt initState 0 (-1) ⟨1, 16, 1⟩ = ⟨initState, -2, false, false⟩ ∧
    interrupt_handler_step initState 0 (-2) = (initState, [], true) ∧
    interrupt_loop initState 0 [⟨1, 16, 1⟩] =
     ((wait_for_interrupt_to_close initState 0).1, [], true) :=
  C10_unset_descriptor_returns_minus_two_and_tears_down initState 0 (-1)
    ⟨1, 16, 1⟩ [] (by decide)

/-- Setting the same index twice keeps only the second write. -/
theorem set_set {α : Type} (l : List α) (i : Nat) (a b : α) :
    (l.set i a).set i b = l.set i b := by
  induction l generalizing i with
  | nil => rfl
  | cons x xs ih =>
    cases i with
    | zero => rfl
    | succ k => simp [List.set, ih]

/-- One poll cycle on a registered, callback-bearing pin that decodes a
full-size record with the valid id 1: `wait_for_interrupt` re-arms the pin
and returns 1, and the loop body then invokes the callback exactly once and
disarms. -/
theorem valid_event_cycle (s : JState) (pin f : Nat) (inp : WaitInput)
    (hlen : pin < s.isr_function_called.length)
    (hfd : s.pin_FDs.getD pin 0 ≠ -1)
    (hcb : s.isr_functions.getD pin none = some f)
    (hpoll : 0 < inp.pollRet) (hread : inp.readRet = gpioevent_data_size)
    (hid : inp.eventId = 1) :
    wait_for_interrupt s pin (-1) inp =
      ⟨{ s with isr_function_called := s.isr_function_called.set pin 1 },
        1, true, true⟩ ∧
    interrupt_handler_step
      { s with isr_function_called := s.isr_function_called.set pin 1 } pin 1 =
      ({ s with isr_function_called := s.isr_function_called.set pin 0 },
        [f], false) := by
  constructor
  · unfold wait_for_interrupt
    rw [if_neg hfd, if_neg (by omega), if_pos hread, if_pos hid, hid]
  · unfold interrupt_handler_step
    rw [if_pos (by norm_num)]
    simp only [hcb]
    rw [if_pos (by rw [getD_set_same _ _ _ _ hlen]; decide)]
    simp [set_set]

/-- A script of `n` valid-event poll cycles on a registered,
callback-bearing pin: the dispatch loop invokes the callback exactly `n`
times, never breaks, and (for `n > 0`) leaves the pin disarmed. -/
theorem loop_replicate_valid (pin f : Nat) (inp : WaitInput)
    (hpoll : 0 < inp.pollRet) (hread : inp.readRet = gpioevent_data_size)
    (hid : inp.eventId = 1) :
    ∀ (n : Nat) (s : JState), pin < s.isr_function_called.length →
      s.pin_FDs.getD pin 0 ≠ -1 → s.isr_functions.getD pin none = some f →
      interrupt_loop s pin (List.replicate n inp) =
        ((if n = 0 then s
          else { s with isr_function_called := s.isr_function_called.set pin 0 }),
         List.replicate n f, false) := by
  intro n
  induction n with
  | zero => intro s _ _ _; rfl
  | succ m ih =>
    intro s hlen hfd hcb
    have hcyc := valid_event_cycle s pin f inp hlen hfd hcb hpoll hread hid
    rw [List.replicate_succ]
    unfold interrupt_loop
    rw [hcyc.1]
    simp only [hcyc.2]
    have hrec := ih { s with isr_function_called := s.isr_function_called.set pin 0 }
      (by simpa using hlen) hfd hcb
    simp only [hrec]
    cases m with
    | zero => simp
    | succ k => simp [set_set, List.replicate_succ]

/-- C1: on a registered pin with a callback, each decoded valid edge event
(full-size record with id equal to the valid-event sentinel 1) causes
exactly one callback invocation: decoding re-arms the pin
(`isr_function_called[pin] = 1`) before dispatch, the loop body then invokes
the callback once and disarms (`isr_function_called[pin] = 0`) until the
next decoded valid event; a script of `n` such events, observed one per
poll cycle, yields exactly `n` invocations of the registered callback in
order, never merged. -/
theorem C1_one_callback_per_valid_event (s : JState) (pin f n : Nat)
    (inp : WaitInput)
    (hlen : pin < s.isr_function_called.length)
    (hfd : s.pin_FDs.getD pin 0 ≠ -1)
    (hcb : s.isr_functions.getD pin none = some f)
    (hpoll : 0 < inp.pollRet) (hread : inp.readRet = gpioevent_data_size)
    (hid : inp.eventId = 1) :
    wait_for_interrupt s pin (-1) inp =
      ⟨{ s with isr_function_called := s.isr_function_called.set pin 1 },
        1, true, true⟩ ∧
    ({ s with isr_function_called := s.isr_function_called.set pin 1 } :
      JState).isr_function_called.getD pin 0 = 1 ∧
    interrupt_handler_step
      { s with isr_function_called := s.isr_function_called.set pin 1 } pin 1 =
      ({ s with isr_function_called := s.isr_function_called.set pin 0 },
        [f], false) ∧
    ({ s with isr_function_called := s.isr_function_called.set pin 0 } :
      JState).isr_function_called.getD pin 0 = 0 ∧
    (interrupt_loop s pin (List.replicate n inp)).2.1 = List.replicate n f ∧
    (interrupt_loop s pin (List.replicate n inp)).2.2 = false := by
  have hcyc := valid_event_cycle s pin f inp hlen hfd hcb hpoll hread hid
  have hloop := loop_replicate_valid pin f inp hpoll hread hid n s hlen hfd hcb
  exact ⟨hcyc.1, getD_set_same _ _ _ _ hlen, hcyc.2,
    getD_set_same _ _ _ _ hlen, by rw [hloop], by rw [hloop]⟩

/-- Witness for C1: two valid events on registered pin 5 yield exactly two
invocations of callback 7. -/
theorem C1_witness :
    wait_for_interrupt regState 5 (-1) validEventInput =
      ⟨{ regState with
          isr_function_called := regState.isr_function_called.set 5 1 },
        1, true, true⟩ ∧
    ({ regState with
        isr_function_called := regState.isr_function_called.set 5 1 } :
      JState).isr_function_called.getD 5 0 = 1 ∧
    interrupt_handler_step
      { regState with
          isr_function_called := regState.isr_function_called.set 5 1 } 5 1 =
      ({ regState with
          isr_function_called := regState.isr_function_called.set 5 0 },
        [7], false) ∧
    ({ regState with
        isr_function_called := regState.isr_function_called.set 5 0 } :
      JState).isr_function_called.getD 5 0 = 0 ∧
    (interrupt_loop regState 5 (List.replicate 2 validEventInput)).2.1 =
      List.replicate 2 7 ∧
    (interrupt_loop regState 5 (List.replicate 2 validEventInput)).2.2 = false :=
  C1_one_callback_per_valid_event regState 5 7 2 validEventInput (by decide)
    (by decide) (by decide) (by decide) (by decide) (by decide)

/-- C6: the dispatch loop never invokes the callback on a short read: with a
registered descriptor and a positive poll result, a read returning fewer
bytes than the event-record size makes `wait_for_interrupt` return 0 with
the state unchanged, and the loop body on a 0 result invokes no callback and
continues the loop. -/
theorem C6_short_read_never_invokes_callback
    (s : JState) (pin : Nat) (inp : WaitInput)
    (hfd : s.pin_FDs.getD pin 0 ≠ -1)
    (hpoll : 0 < inp.pollRet)
    (hshort : inp.readRet < gpioevent_data_size) :
    wait_for_interrupt s pin (-1) inp = ⟨s, 0, true, true⟩ ∧
    interrupt_handler_step s pin 0 = (s, [], false) := by
  constructor
  · unfold wait_for_interrupt
    rw [if_neg hfd, if_neg (by omega), if_neg (by omega)]
  · unfold interrupt_handler_step
    norm_num

/-- Witness for C6: a registered pin 5 with a 10-byte read. -/
theorem C6_witness :
    wait_for_interrupt
      { initState with pin_FDs := initState.pin_FDs.set 5 4 } 5 (-1) ⟨1, 10, 1⟩ =
      ⟨{ initState with pin_FDs := initState.pin_FDs.set 5 4 }, 0, true, true⟩ ∧
    interrupt_handler_step
      { initState with pin_FDs := initState.pin_FDs.set 5 4 } 5 0 =
      ({ initState with pin_FDs := initState.pin_FDs.set 5 4 }, [], false) :=
  C6_short_read_never_invokes_callback _ 5 ⟨1, 10, 1⟩ (by decide) (by decide)
    (by decide)

/-- Characterization of `jakestering_ISR` when the line-event ioctl fails:
the registry writes stand, no descriptor is stored, the thread is created
anyway, and only `chip_FD` may additionally change. -/
theorem jakestering_ISR_ioctl_fail_eq (s : JState) (env : InitEnv)
    (pin : Nat) (mode : Int) (f : Nat) (hioctl : env.ioctlRet ≠ 0) :
    (jakestering_ISR s env true pin mode f).1 = { s with
      chip_FD := if s.chip_FD < 0 then env.openRet else s.chip_FD
      isr_functions := s.isr_functions.set pin (some f)
      isr_modes := s.isr_modes.set pin mode
      isr_function_called := s.isr_function_called.set pin 1
      isr_threads := s.isr_threads.set pin (some (s.threadsCreated + 1))
      threadsCreated := s.threadsCreated + 1 } := by
  by_cases h1 : s.chip_FD < 0
  · by_cases h2 : env.openRet < 0
    · simp [jakestering_ISR, interrupt_init, interrupt_init_after_chip,
        h1, h2, hioctl]
    · simp [jakestering_ISR, interrupt_init, interrupt_init_after_chip,
        h1, h2, hioctl]
  · simp [jakestering_ISR, interrupt_init, interrupt_init_after_chip,
      h1, hioctl]

/-- C2 counterexample: with the line-event ioctl failing, `jakestering_ISR`
on pin 5 returns 0 (success, not an error), leaves the callback, mode and
armed flag stored in the registry (no rollback), and still creates a
dispatch thread. -/
theorem C2_counterexample :
    (jakestering_ISR initState failLineEnv true 5 2 7).2 = 0 ∧
    (jakestering_ISR initState failLineEnv true 5 2 7).1.isr_functions.getD
      5 none = some 7 ∧
    (jakestering_ISR initState failLineEnv true 5 2 7).1.isr_modes.getD
      5 0 = 2 ∧
    (jakestering_ISR initState failLineEnv true 5 2 7).1.isr_function_called.getD
      5 0 = 1 ∧
    (jakestering_ISR initState failLineEnv true 5 2 7).1.threadsCreated = 1 := by
  decide

/-- C2 amended: when obtaining the line-event descriptor fails during
registration, `jakestering_ISR` only prints a message: it leaves the
registry entry populated (callback, mode and armed flag all still set),
stores no descriptor (`pin_FDs` unchanged), still creates the dispatch
thread, and returns 0 — indistinguishable from success to the caller. -/
theorem C2_amended_no_rollback_on_line_failure (s : JState) (env : InitEnv)
    (pin : Nat) (mode : Int) (f : Nat)
    (hlf : pin < s.isr_functions.length)
    (hlm : pin < s.isr_modes.length)
    (hlc : pin < s.isr_function_called.length)
    (hioctl : env.ioctlRet ≠ 0) :
    (jakestering_ISR s env true pin mode f).2 = 0 ∧
    (jakestering_ISR s env true pin mode f).1.isr_functions.getD pin none =
      some f ∧
    (jakestering_ISR s env true pin mode f).1.isr_modes.getD pin 0 = mode ∧
    (jakestering_ISR s env true pin mode f).1.isr_function_called.getD pin 0 =
      1 ∧
    (jakestering_ISR s env true pin mode f).1.threadsCreated =
      s.threadsCreated + 1 ∧
    (jakestering_ISR s env true pin mode f).1.pin_FDs = s.pin_FDs := by
  rw [jakestering_ISR_ioctl_fail_eq s env pin mode f hioctl]
  exact ⟨rfl, getD_set_same _ _ _ _ hlf, getD_set_same _ _ _ _ hlm,
    getD_set_same _ _ _ _ hlc, rfl, rfl⟩

/-- Witness for the amended C2 on pin 5 from the initial state. -/
theorem C2_amended_witness :
    (jakestering_ISR initState failLineEnv true 5 2 7).2 = 0 ∧
    (jakestering_ISR initState failLineEnv true 5 2 7).1.isr_functions.getD
      5 none = some 7 ∧
    (jakestering_ISR initState failLineEnv true 5 2 7).1.isr_modes.getD
      5 0 = 2 ∧
    (jakestering_ISR initState failLineEnv true 5 2 7).1.isr_function_called.getD
      5 0 = 1 ∧
    (jakestering_ISR initState failLineEnv true 5 2 7).1.threadsCreated =
      0 + 1 ∧
    (jakestering_ISR initState failLineEnv true 5 2 7).1.pin_FDs =
      initState.pin_FDs :=
  C2_amended_no_rollback_on_line_failure initState failLineEnv 5 2 7
    (by decide) (by decide) (by decide) (by decide)

/-- `jakestering_ISR` never requests a thread cancellation and never closes
a descriptor, and (with `pthread_create` succeeding) always creates one new
thread and returns 0, whatever the oracle outcomes. -/
theorem jakestering_ISR_effects (s : JState) (env : InitEnv)
    (pin : Nat) (mode : Int) (f : Nat) :
    (jakestering_ISR s env true pin mode f).1.cancels = s.cancels ∧
    (jakestering_ISR s env true pin mode f).1.closes = s.closes ∧
    (jakestering_ISR s env true pin mode f).1.threadsCreated =
      s.threadsCreated + 1 ∧
    (jakestering_ISR s env true pin mode f).2 = 0 := by
  unfold jakestering_ISR interrupt_init interrupt_init_after_chip
  by_cases h1 : s.chip_FD < 0 <;> by_cases h2 : env.openRet < 0 <;>
    by_cases h3 : env.ioctlRet = 0 <;> by_cases h4 : env.fcntlSetRet = 0 <;>
    simp [h1, h2, h3, h4]

/-- C3 counterexample: pin 5 is already registered (live descriptor 4); a
second `jakestering_ISR` on pin 5 (its line request failing with -EBUSY, as
the kernel reports for an already-claimed line) tears nothing down — no
cancellation, no close, old descriptor still stored — yet creates a second
dispatch thread for the same pin. -/
theorem C3_counterexample :
    regState.pin_FDs.getD 5 0 = 4 ∧
    regState.threadsCreated = 1 ∧
    (jakestering_ISR regState busyEnv true 5 2 8).1.threadsCreated = 2 ∧
    (jakestering_ISR regState busyEnv true 5 2 8).1.cancels = 0 ∧
    (jakestering_ISR regState busyEnv true 5 2 8).1.closes = 0 ∧
    (jakestering_ISR regState busyEnv true 5 2 8).1.pin_FDs.getD 5 0 = 4 ∧
    (jakestering_ISR regState busyEnv true 5 2 8).1.isr_threads.getD 5 none =
      some 2 := by
  decide

/-- C3 amended: `jakestering_ISR` performs no teardown when called on a pin
that already has an active registration — it requests no thread
cancellation, closes no descriptor, and unconditionally creates another
dispatch thread for the pin, returning 0; so registering twice leaves two
created threads and the first registration is never torn down. -/
theorem C3_amended_no_teardown_on_reregistration (s : JState) (env : InitEnv)
    (pin : Nat) (mode : Int) (f : Nat)
    (hactive : 0 < s.pin_FDs.getD pin 0) :
    (jakestering_ISR s env true pin mode f).1.cancels = s.cancels ∧
    (jakestering_ISR s env true pin mode f).1.closes = s.closes ∧
    (jakestering_ISR s env true pin mode f).1.threadsCreated =
      s.threadsCreated + 1 ∧
    (jakestering_ISR s env true pin mode f).2 = 0 :=
  jakestering_ISR_effects s env pin mode f

/-- Witness for the amended C3: re-registering live pin 5. -/
theorem C3_amended_witness :
    (jakestering_ISR regState busyEnv true 5 2 8).1.cancels =
      regState.cancels ∧
    (jakestering_ISR regState busyEnv true 5 2 8).1.closes =
      regState.closes ∧
    (jakestering_ISR regState busyEnv true 5 2 8).1.threadsCreated =
      regState.threadsCreated + 1 ∧
    (jakestering_ISR regState busyEnv true 5 2 8).2 = 0 :=
  C3_amended_no_teardown_on_reregistration regState busyEnv 5 2 8 (by decide)

/-- C4 counterexample: when the non-blocking fcntl on the freshly obtained
line descriptor 4 fails, `interrupt_init` returns -1 but closes nothing
(`closes` still 0) and `pin_FDs[5]` retains the dead descriptor 4. -/
theorem C4_counterexample :
    (interrupt_init initState fcntlFailEnv 5 2).2 = -1 ∧
    (interrupt_init initState fcntlFailEnv 5 2).1.closes = 0 ∧
    (interrupt_init initState fcntlFailEnv 5 2).1.pin_FDs.getD 5 0 = 4 := by
  decide

/-- C4 amended: if the newly obtained event descriptor cannot be set
non-blocking, `interrupt_init` fails with the same generic -1 used by every
failure path (no distinct error code), but the descriptor is not closed
before returning and `pin_FDs[pin]` retains it. -/
theorem C4_amended_fcntl_failure_keeps_descriptor (s : JState)
    (env : InitEnv) (pin : Nat) (mode : Int)
    (hlen : pin < s.pin_FDs.length)
    (hchip : 0 ≤ s.chip_FD ∨ 0 ≤ env.openRet)
    (hioctl : env.ioctlRet = 0)
    (hfcntl : env.fcntlSetRet ≠ 0) :
    (interrupt_init s env pin mode).2 = -1 ∧
    (interrupt_init s env pin mode).1.closes = s.closes ∧
    (interrupt_init s env pin mode).1.pin_FDs.getD pin 0 = env.lineFd := by
  by_cases h1 : s.chip_FD < 0
  · have h2 : ¬ env.openRet < 0 := by rcases hchip with hc | hc <;> omega
    simp [interrupt_init, interrupt_init_after_chip, h1, h2, hioctl, hfcntl,
      getD_set_same s.pin_FDs pin env.lineFd 0 hlen,
      getElem?_getD_set_same s.pin_FDs pin env.lineFd 0 hlen]
  · simp [interrupt_init, interrupt_init_after_chip, h1, hioctl, hfcntl,
      getD_set_same s.pin_FDs pin env.lineFd 0 hlen,
      getElem?_getD_set_same s.pin_FDs pin env.lineFd 0 hlen]

/-- Witness for the amended C4 on pin 5 from the initial state. -/
theorem C4_amended_witness :
    (interrupt_init initState fcntlFailEnv 5 2).2 = -1 ∧
    (interrupt_init initState fcntlFailEnv 5 2).1.closes = initState.closes ∧
    (interrupt_init initState fcntlFailEnv 5 2).1.pin_FDs.getD 5 0 =
      fcntlFailEnv.lineFd :=
  C4_amended_fcntl_failure_keeps_descriptor initState fcntlFailEnv 5 2
    (by decide) (by decide) (by decide) (by decide)

/-- C5 counterexample: `wait_for_interrupt_to_close` on never-registered
pin 5 is not a no-op and reports success: it mutates the registry entry
(`pin_FDs[5]` goes from 0 to -1, `isr_function_called[5]` from 0 to 1) and
returns 0 rather than any NotRegistered error. -/
theorem C5_counterexample :
    (wait_for_interrupt_to_close initState 5).2 = 0 ∧
    initState.pin_FDs.getD 5 0 = 0 ∧
    (wait_for_interrupt_to_close initState 5).1.pin_FDs.getD 5 0 = -1 ∧
    initState.isr_function_called.getD 5 0 = 0 ∧
    (wait_for_interrupt_to_close initState 5).1.isr_function_called.getD
      5 0 = 1 := by
  decide

/-- C5 amended: on a pin with no active descriptor (`pin_FDs[pin] ≤ 0`),
`wait_for_interrupt_to_close` cancels no thread and closes no descriptor,
but it is not a state no-op and does not report an error: it unconditionally
resets the registry entry (`pin_FDs[pin] = -1`, callback cleared, armed
flag set to 1) and returns 0 (success; the code has no NotRegistered
result). -/
theorem C5_amended_reset_even_when_unregistered (s : JState) (pin : Nat)
    (hfd : s.pin_FDs.getD pin 0 ≤ 0)
    (hl1 : pin < s.pin_FDs.length)
    (hl2 : pin < s.isr_functions.length)
    (hl3 : pin < s.isr_function_called.length) :
    wait_for_interrupt_to_close s pin =
      ({ s with
          pin_FDs := s.pin_FDs.set pin (-1)
          isr_functions := s.isr_functions.set pin none
          isr_function_called := s.isr_function_called.set pin 1 }, 0) ∧
    (wait_for_interrupt_to_close s pin).1.cancels = s.cancels ∧
    (wait_for_interrupt_to_close s pin).1.closes = s.closes ∧
    (wait_for_interrupt_to_close s pin).1.pin_FDs.getD pin 0 = -1 ∧
    (wait_for_interrupt_to_close s pin).1.isr_functions.getD pin none =
      none ∧
    (wait_for_interrupt_to_close s pin).1.isr_function_called.getD pin 0 =
      1 := by
  have h : ¬ s.pin_FDs.getD pin 0 > 0 := by omega
  have h' : ¬ 0 < s.pin_FDs[pin]?.getD 0 := by
    rw [← List.getD_eq_getElem?_getD]
    exact h
  unfold wait_for_interrupt_to_close
  simp [h, h', getD_set_same s.pin_FDs pin (-1) 0 hl1,
    getElem?_getD_set_same s.pin_FDs pin (-1) 0 hl1,
    getD_set_same s.isr_functions pin none none hl2,
    getElem?_getD_set_same s.isr_functions pin none none hl2,
    getD_set_same s.isr_function_called pin 1 0 hl3,
    getElem?_getD_set_same s.isr_function_called pin 1 0 hl3]

/-- Witness for the amended C5 on never-registered pin 5. -/
theorem C5_amended_witness :
    wait_for_interrupt_to_close initState 5 =
      ({ initState with
          pin_FDs := initState.pin_FDs.set 5 (-1)
          isr_functions := initState.isr_functions.set 5 none
          isr_function_called := initState.isr_function_called.set 5 1 },
        0) ∧
    (wait_for_interrupt_to_close initState 5).1.cancels =
      initState.cancels ∧
    (wait_for_interrupt_to_close initState 5).1.closes = initState.closes ∧
    (wait_for_interrupt_to_close initState 5).1.pin_FDs.getD 5 0 = -1 ∧
    (wait_for_interrupt_to_close initState 5).1.isr_functions.getD 5 none =
      none ∧
    (wait_for_interrupt_to_close initState 5).1.isr_function_called.getD
      5 0 = 1 :=
  C5_amended_reset_even_when_unregistered initState 5 (by decide)
    (by decide) (by decide) (by decide)

/-- C7 counterexample: `jakestering_ISR` on the out-of-range pin 40 does
not fail: it returns 0 and creates a dispatch thread (in the C source it
also writes the per-pin tables out of bounds). -/
theorem C7_counterexample :
    (jakestering_ISR initState goodEnv true 40 2 7).2 = 0 ∧
    (jakestering_ISR initState goodEnv true 40 2 7).1.threadsCreated = 1 := by
  decide

/-- C7 amended: `jakestering_ISR` performs no range validation on its pin
argument and has no InvalidPin failure: even for a pin outside 0..31 it
proceeds — indexing the 32-entry tables at that pin (an out-of-bounds
access in the C source), attempting the line request, creating a dispatch
thread — and returns 0. -/
theorem C7_amended_no_pin_validation (s : JState) (env : InitEnv)
    (pin : Nat) (mode : Int) (f : Nat) (hout : 32 ≤ pin) :
    (jakestering_ISR s env true pin mode f).2 = 0 ∧
    (jakestering_ISR s env true pin mode f).1.threadsCreated =
      s.threadsCreated + 1 := by
  have h := jakestering_ISR_effects s env pin mode f
  exact ⟨h.2.2.2, h.2.2.1⟩

/-- Witness for the amended C7 at pin 40. -/
theorem C7_amended_witness :
    (jakestering_ISR initState goodEnv true 40 2 7).2 = 0 ∧
    (jakestering_ISR initState goodEnv true 40 2 7).1.threadsCreated =
      initState.threadsCreated + 1 :=
  C7_amended_no_pin_validation initState goodEnv 40 2 7 (by decide)

/-- Characterization of a fully successful `jakestering_ISR`: callback,
mode, armed flag, descriptor and thread token all stored for the pin. -/
theorem jakestering_ISR_success_eq (s : JState) (env : InitEnv)
    (pin : Nat) (mode : Int) (f : Nat)
    (hchip : 0 ≤ s.chip_FD ∨ 0 ≤ env.openRet)
    (hioctl : env.ioctlRet = 0) (hfcntl : env.fcntlSetRet = 0) :
    (jakestering_ISR s env true pin mode f).1 = { s with
      chip_FD := if s.chip_FD < 0 then env.openRet else s.chip_FD
      pin_FDs := s.pin_FDs.set pin env.lineFd
      isr_functions := s.isr_functions.set pin (some f)
      isr_modes := s.isr_modes.set pin mode
      isr_function_called := s.isr_function_called.set pin 1
      isr_threads := s.isr_threads.set pin (some (s.threadsCreated + 1))
      threadsCreated := s.threadsCreated + 1 } := by
  by_cases h1 : s.chip_FD < 0
  · have h2 : ¬ env.openRet < 0 := by rcases hchip with hc | hc <;> omega
    simp [jakestering_ISR, interrupt_init, interrupt_init_after_chip,
      h1, h2, hioctl, hfcntl]
  · simp [jakestering_ISR, interrupt_init, interrupt_init_after_chip,
      h1, hioctl, hfcntl]

/-- C8 counterexample: register pin 5 then immediately unregister it; the
resulting registry entry differs from the pre-registration initial state
in the descriptor slot (-1 vs 0), the armed flag (1 vs 0), the stored mode
(2 vs 0) and the thread slot (stale token vs none) — not "exactly the same
observable per-pin state as before registration". -/
theorem C8_counterexample :
    (wait_for_interrupt_to_close regState 5).1.pin_FDs.getD 5 0 = -1 ∧
    initState.pin_FDs.getD 5 0 = 0 ∧
    (wait_for_interrupt_to_close regState 5).1.isr_function_called.getD
      5 0 = 1 ∧
    initState.isr_function_called.getD 5 0 = 0 ∧
    (wait_for_interrupt_to_close regState 5).1.isr_threads.getD 5 none =
      some 1 ∧
    initState.isr_threads.getD 5 none = none ∧
    (wait_for_interrupt_to_close regState 5).1.isr_modes.getD 5 0 = 2 ∧
    initState.isr_modes.getD 5 0 = 0 := by
  decide

/-- C8 amended: for every valid pin and edge mode, a successful
`jakestering_ISR` followed immediately by `wait_for_interrupt_to_close`
cancels the thread and closes the descriptor (no leak of either) and leaves
the pin's registry entry in the code's torn-down state — descriptor slot
-1, callback cleared, armed flag 1 — but the stored edge mode and the stale
thread token survive, and (per C9) this torn-down state differs from the
pre-registration initial state of pins 1..31. -/
theorem C8_amended_register_then_unregister (s : JState) (env : InitEnv)
    (pin : Nat) (mode : Int) (f : Nat)
    (hl1 : pin < s.pin_FDs.length)
    (hl2 : pin < s.isr_functions.length)
    (hl3 : pin < s.isr_function_called.length)
    (hl4 : pin < s.isr_modes.length)
    (hl5 : pin < s.isr_threads.length)
    (hchip : 0 ≤ s.chip_FD ∨ 0 ≤ env.openRet)
    (hioctl : env.ioctlRet = 0) (hfcntl : env.fcntlSetRet = 0)
    (hfd : 0 < env.lineFd) :
    (wait_for_interrupt_to_close (jakestering_ISR s env true pin mode f).1
      pin).2 = 0 ∧
    (wait_for_interrupt_to_close (jakestering_ISR s env true pin mode f).1
      pin).1.cancels = s.cancels + 1 ∧
    (wait_for_interrupt_to_close (jakestering_ISR s env true pin mode f).1
      pin).1.closes = s.closes + 1 ∧
    (wait_for_interrupt_to_close (jakestering_ISR s env true pin mode f).1
      pin).1.pin_FDs.getD pin 0 = -1 ∧
    (wait_for_interrupt_to_close (jakestering_ISR s env true pin mode f).1
      pin).1.isr_functions.getD pin none = none ∧
    (wait_for_interrupt_to_close (jakestering_ISR s env true pin mode f).1
      pin).1.isr_function_called.getD pin 0 = 1 ∧
    (wait_for_interrupt_to_close (jakestering_ISR s env true pin mode f).1
      pin).1.isr_modes.getD pin 0 = mode ∧
    (wait_for_interrupt_to_close (jakestering_ISR s env true pin mode f).1
      pin).1.isr_threads.getD pin none = some (s.threadsCreated + 1) := by
  rw [jakestering_ISR_success_eq s env pin mode f hchip hioctl hfcntl]
  have hget : (s.pin_FDs.set pin env.lineFd).getD pin 0 = env.lineFd :=
    getD_set_same _ _ _ _ hl1
  unfold wait_for_interrupt_to_close
  simp only [hget, if_pos hfd]
  refine ⟨trivial, trivial, trivial, ?_, ?_, ?_, ?_, ?_⟩
  · rw [set_set]
    exact getD_set_same _ _ _ _ hl1
  · rw [set_set]
    exact getD_set_same _ _ _ _ hl2
  · rw [set_set]
    exact getD_set_same _ _ _ _ hl3
  · exact getD_set_same _ _ _ _ hl4
  · exact getD_set_same _ _ _ _ hl5

/-- Witness for the amended C8 on pin 5 with mode 2 and callback 7. -/
theorem C8_amended_witness :
    (wait_for_interrupt_to_close
      (jakestering_ISR initState goodEnv true 5 2 7).1 5).2 = 0 ∧
    (wait_for_interrupt_to_close
      (jakestering_ISR initState goodEnv true 5 2 7).1 5).1.cancels =
      initState.cancels + 1 ∧
    (wait_for_interrupt_to_close
      (jakestering_ISR initState goodEnv true 5 2 7).1 5).1.closes =
      initState.closes + 1 ∧
    (wait_for_interrupt_to_close
      (jakestering_ISR initState goodEnv true 5 2 7).1 5).1.pin_FDs.getD
      5 0 = -1 ∧
    (wait_for_interrupt_to_close
      (jakestering_ISR initState goodEnv true 5 2 7).1 5).1.isr_functions.getD
      5 none = none ∧
    (wait_for_interrupt_to_close
      (jakestering_ISR initState goodEnv true 5 2 7).1
      5).1.isr_function_called.getD 5 0 = 1 ∧
    (wait_for_interrupt_to_close
      (jakestering_ISR initState goodEnv true 5 2 7).1 5).1.isr_modes.getD
      5 0 = 2 ∧
    (wait_for_interrupt_to_close
      (jakestering_ISR initState goodEnv true 5 2 7).1 5).1.isr_threads.getD
      5 none = some (initState.threadsCreated + 1) :=
  C8_amended_register_then_unregister initState goodEnv 5 2 7 (by decide)
    (by decide) (by decide) (by decide) (by decide) (by decide) (by decide)
    (by decide) (by decide)

end Jakestering
